import Mathlib

/-!
Verification of the ETOS environment provider checkout/splitting engine.

The definitions below are a shallow embedding of the Python sources
src/environment_provider/environment_provider.py and
src/environment_provider/lib/registry.py.  Dictionaries are modelled as
insertion-ordered association lists (matching Python dict semantics),
exceptions as Except values, wall-clock time as a natural number that the
polling loops advance explicitly, and the external collaborators (the etcd
configuration store, the Eiffel event bus, the resource-provider backends)
as function parameters.
-/

namespace EnvProvider

/-- Execution constraints of one test, mirroring the Test model's
execution field (environment, command, execute, checkout, parameters,
testRunner) used by recipes_from_tests and create_test_suite_dict. -/
structure Execution where
  environment : String
  command : String
  execute : String
  checkout : String
  parameters : String
  testRunner : String
deriving DecidableEq, Repr

/-- One test of a test suite, mirroring the etos_lib Test schema fields
consumed by this repository: id, testCase and execution. -/
structure Test where
  id : String
  testCase : String
  execution : Execution
deriving DecidableEq, Repr

/-- One constraint entry of an Eiffel TERCC recipe: a key/value pair. -/
structure Constraint where
  key : String
  value : String
deriving DecidableEq, Repr

/-- An Eiffel TERCC recipe as built by recipes_from_tests:
id, testCase and the list of constraints. -/
structure Recipe where
  id : String
  testCase : String
  constraints : List Constraint
deriving DecidableEq, Repr

/-- One test-runner group of the test-suite dictionary built by
create_test_suite_dict: docker image name, priority and the list of
not-yet-split recipes (tests). -/
structure Group where
  docker : String
  priority : Nat
  unsplit_recipes : List Test
deriving DecidableEq, Repr

/-- One test suite of the testrun specification: name, priority and tests
(environment_provider_config.testrun.spec.suites elements). -/
structure SuiteSpec where
  name : String
  priority : Nat
  tests : List Test
deriving DecidableEq, Repr

/-! ### recipes_from_tests and get_constraint
(environment_provider.py lines 175-186 and 295-335) -/

/-- The recipe dictionary built for a single test inside the loop of
recipes_from_tests: id, testCase and the six constraints
ENVIRONMENT, COMMAND, EXECUTE, CHECKOUT, PARAMETERS, TEST_RUNNER, in
source order, each bound to the corresponding execution field. -/
def recipe_from_test (t : Test) : Recipe :=
  { id := t.id
    testCase := t.testCase
    constraints := [
      ⟨"ENVIRONMENT", t.execution.environment⟩,
      ⟨"COMMAND", t.execution.command⟩,
      ⟨"EXECUTE", t.execution.execute⟩,
      ⟨"CHECKOUT", t.execution.checkout⟩,
      ⟨"PARAMETERS", t.execution.parameters⟩,
      ⟨"TEST_RUNNER", t.execution.testRunner⟩] }

/-- recipes_from_tests: builds one recipe per test by appending to a list,
preserving order (environment_provider.py lines 295-335). -/
def recipes_from_tests : List Test → List Recipe
  | [] => []
  | t :: ts => recipe_from_test t :: recipes_from_tests ts

/-- The loop of get_constraint over the constraints list: return the value
of the first constraint whose key matches, None if none does. -/
def get_constraint_loop (key : String) : List Constraint → Option String
  | [] => none
  | c :: rest => if c.key = key then some c.value else get_constraint_loop key rest

/-- get_constraint (environment_provider.py lines 175-186): scan the
constraints of a recipe for the first entry with the given key. -/
def get_constraint (recipe : Recipe) (key : String) : Option String :=
  get_constraint_loop key recipe.constraints

/-! ### create_test_suite_dict (environment_provider.py lines 188-241)

Python dicts are insertion ordered; setdefault either returns the
existing entry or appends a fresh one at the end.  The inner dict maps a
test-runner image name to its Group; the outer dict maps a suite name to
its inner dict. -/

/-- Effect of one loop body iteration of create_test_suite_dict on the
inner test-runner dict: setdefault the test's runner to a fresh group
(docker = runner, priority = suite priority, no recipes) and append the
test to that group's unsplit_recipes. -/
def updateGroup (prio : Nat) (t : Test) : List (String × Group) → List (String × Group)
  | [] => [(t.execution.testRunner, ⟨t.execution.testRunner, prio, [t]⟩)]
  | (k, g) :: rest =>
    if k = t.execution.testRunner then
      (k, { g with unsplit_recipes := g.unsplit_recipes ++ [t] }) :: rest
    else
      (k, g) :: updateGroup prio t rest

/-- The inner for-loop of create_test_suite_dict over the tests of one
suite, threading the test-runner dict. -/
def addSuiteTests (prio : Nat) (runners : List (String × Group)) : List Test → List (String × Group)
  | [] => runners
  | t :: ts => addSuiteTests prio (updateGroup prio t runners) ts

/-- Effect of one outer-loop iteration of create_test_suite_dict on the
suite-name dict: setdefault the suite name to an empty inner dict, then
run the inner loop over the suite's tests. -/
def updateSuites (d : List (String × List (String × Group))) (s : SuiteSpec) :
    List (String × List (String × Group)) :=
  match d with
  | [] => [(s.name, addSuiteTests s.priority [] s.tests)]
  | (n, rs) :: rest =>
    if n = s.name then (n, addSuiteTests s.priority rs s.tests) :: rest
    else (n, rs) :: updateSuites rest s

/-- create_test_suite_dict: fold the outer loop over all suites of the
testrun specification, starting from the empty dict. -/
def create_test_suite_dict (suites : List SuiteSpec) : List (String × List (String × Group)) :=
  suites.foldl updateSuites []

/-- All recipes held by an inner test-runner dict, in dict order. -/
def groupRecipes (rs : List (String × Group)) : List Test :=
  (rs.map (fun p => p.2.unsplit_recipes)).flatten

/-- All recipes held by a whole test-suite dict, in dict order. -/
def allRecipes (d : List (String × List (String × Group))) : List Test :=
  (d.map (fun p => groupRecipes p.2)).flatten

/-- All tests of the input testrun specification, in input order. -/
def allTests (suites : List SuiteSpec) : List Test :=
  (suites.map (fun s => s.tests)).flatten

/-- Recipes of the group stored under a runner key in an inner dict,
empty when the key is absent (first matching entry, as Python lookup). -/
def lookupRecipes (k : String) : List (String × Group) → List Test
  | [] => []
  | (k', g) :: rest => if k' = k then g.unsplit_recipes else lookupRecipes k rest

/-- Inner dict stored under a suite name in the outer dict, empty when
the name is absent. -/
def lookupGroups (n : String) : List (String × List (String × Group)) → List (String × Group)
  | [] => []
  | (n', rs) :: rest => if n' = n then rs else lookupGroups n rest

/-- Concatenated tests of all input suites bearing a given name, in
input order. -/
def testsOf (n : String) (suites : List SuiteSpec) : List Test :=
  ((suites.filter (fun s => s.name == n)).map (fun s => s.tests)).flatten

/-! ### set_total_test_count_and_test_runners and the IUT request bounds
(environment_provider.py lines 243-252 and 465-480) -/

/-- TOTAL_TEST_COUNT as computed by set_total_test_count_and_test_runners:
the sum of the lengths of all unsplit_recipes lists of the current
test-runner dict. -/
def set_total_test_count (test_runners : List (String × Group)) : Nat :=
  test_runners.foldl (fun acc p => acc + p.2.unsplit_recipes.length) 0

/-- The minimum_amount argument passed to wait_for_and_checkout_iuts:
the literal 1 (environment_provider.py line 471). -/
def iut_checkout_minimum : Nat := 1

/-- The maximum_amount argument passed to wait_for_and_checkout_iuts
(environment_provider.py lines 472-478): the dataset value maximum_amount
when present, else the ETOS_MAX_PARALLEL_IUTS environment override when
present, else TOTAL_TEST_COUNT. -/
def iut_checkout_maximum (dataset_max env_max : Option Nat)
    (test_runners : List (String × Group)) : Nat :=
  match dataset_max with
  | some v => v
  | none =>
    match env_max with
    | some v => v
    | none => set_total_test_count test_runners

/-! ### The checkout loop and its deadline
(environment_provider.py lines 395-416 and 463-541)

The loop body (IUT checkout, splitter assignment, execution-space and
log-area checkout per IUT, split, announce, popping finished groups) is
abstracted as a function from the current time and test-runner dict to
the remaining test-runner dict; body_time gives how long the body of an
iteration takes.  The time.sleep(5) at the end of each unfinished
iteration advances the clock by a further 5 units. -/

/-- Result of the while-else checkout loop: the break on an empty
test-runner dict, or the TimeoutError raised by the else clause. -/
inductive CheckoutResult
  | success
  | checkoutTimeout
deriving DecidableEq, Repr

/-- checkout_timeout (environment_provider.py lines 395-416): the absolute
deadline, the current time plus WAIT_FOR_IUT_TIMEOUT plus
WAIT_FOR_EXECUTION_SPACE_TIMEOUT plus WAIT_FOR_LOG_AREA_TIMEOUT plus the
grace constant 10. -/
def checkout_timeout (now iutT execT logT : Nat) : Nat :=
  now + (iutT + execT + logT + 10)

/-- The while-else loop of checkout (environment_provider.py lines
465-541): while the clock is before the deadline run the body; break with
success when the test-runner dict has emptied, otherwise sleep 5 units
and re-check; when the deadline check fails, raise the timeout error.
Also counts how many iterations (boundary checks that passed) were run. -/
def checkout_loop (body : Nat → List (String × Group) → List (String × Group))
    (body_time : Nat → Nat) (timeout now : Nat)
    (test_runners : List (String × Group)) : Nat × CheckoutResult :=
  if h : now < timeout then
    let remaining := body now test_runners
    if remaining.isEmpty then (1, .success)
    else
      let r := checkout_loop body body_time timeout (now + body_time now + 5) remaining
      (r.1 + 1, r.2)
  else (0, .checkoutTimeout)
termination_by timeout - now
decreasing_by omega

/-- checkout: run the loop against the deadline returned by
checkout_timeout. -/
def checkout (body : Nat → List (String × Group) → List (String × Group))
    (body_time : Nat → Nat) (iutT execT logT now : Nat)
    (test_runners : List (String × Group)) : Nat × CheckoutResult :=
  checkout_loop body body_time (checkout_timeout now iutT execT logT) now test_runners

/-! ### wait_for_main_suite and the per-suite workflow of _run
(environment_provider.py lines 549-616) -/

/-- The while loop of wait_for_main_suite: while the previous request
returned nothing and the clock is before the deadline, request the main
suite again and sleep 5 units.  Also counts the requests made by the
loop.  The event repository is abstracted as a function from request
time to an optional main-suite id. -/
def main_suite_loop (request : Nat → Option String) (timeout : Nat)
    (cur : Option String) (now : Nat) : Nat × Option String :=
  if h : cur = none ∧ now < timeout then
    let r := main_suite_loop request timeout (request now) (now + 5)
    (r.1 + 1, r.2)
  else (0, cur)
termination_by timeout - now
decreasing_by omega

/-- wait_for_main_suite (environment_provider.py lines 549-560): one
initial request, then the polling loop against a deadline 30 units from
now; returns the request count and the final result. -/
def wait_for_main_suite (request : Nat → Option String) (now : Nat) :
    Nat × Option String :=
  let main_suite := request now
  let r := main_suite_loop request (now + 30) main_suite now
  (r.1 + 1, r.2)

/-- The main-suite-id stage of _run (environment_provider.py lines
579-595): in controller mode the REQUEST_ID environment value is used and
the event repository is never consulted; otherwise the wait result is
used, a missing main suite raising the TimeoutError. -/
def main_suite_id_for (etos_controller : Bool) (wait : Unit → Option String)
    (request_id : Option String) : Except String (Option String) :=
  if etos_controller then .ok request_id
  else
    match wait () with
    | none => .error "Timed out while waiting for test suite started from ESR"
    | some main_suite => .ok (some main_suite)

/-- Conclusion field of the activity finished event outcome. -/
inductive Conclusion
  | successful
  | unsuccessful
deriving DecidableEq, Repr

/-- Outcome payload of one send_activity_finished call: the conclusion
and, on failure, the stringified error as description. -/
structure ActivityOutcome where
  conclusion : Conclusion
  description : Option String
deriving DecidableEq, Repr

/-- One iteration of the per-suite loop of _run (environment_provider.py
lines 576-616): the try block runs the main-suite stage, then
send_activity_triggered, then send_activity_started, then checkout, the
local variable triggered holding the triggered event only once
send_activity_triggered has returned; the finally block computes the
outcome from the recorded error and sends activity finished only when
triggered is not None.  Returns the list of activity-finished emissions
and the propagated result. -/
def run_one_suite (etos_controller : Bool) (wait : Unit → Option String)
    (request_id : Option String) (send_triggered : Except String Nat)
    (send_started : Nat → Except String Unit)
    (do_checkout : Except String Unit) :
    List ActivityOutcome × Except String Unit :=
  let body : Option Nat × Except String Unit :=
    match main_suite_id_for etos_controller wait request_id with
    | .error e => (none, .error e)
    | .ok _main_suite_id =>
      match send_triggered with
      | .error e => (none, .error e)
      | .ok triggered =>
        match send_started triggered with
        | .error e => (some triggered, .error e)
        | .ok _ =>
          match do_checkout with
          | .error e => (some triggered, .error e)
          | .ok _ => (some triggered, .ok ())
  let outcome : ActivityOutcome :=
    match body.2 with
    | .ok _ => ⟨.successful, none⟩
    | .error e => ⟨.unsuccessful, some e⟩
  let finished : List ActivityOutcome :=
    match body.1 with
    | some _ => [outcome]
    | none => []
  (finished, body.2)

/-! ### cleanup and run (environment_provider.py lines 166-173 and
666-689) -/

/-- Provider ids named by the environment request
(request.spec.providers). -/
structure ProviderIds where
  iut : String
  executionSpace : String
  logArea : String
deriving DecidableEq, Repr

/-- The valid provider types accepted by _get_provider. -/
def provider_types : List String := ["log-area", "execution-space", "iut"]

/-- The _get_provider operation (registry.py lines 93-113): reject unknown provider
types; with a testrun identifier read the testrun-scoped key; otherwise
compute the provider-id key for the requested type and then, as the
source does just before reading, overwrite it with the default key of the
global namespace and read that.  The etcd store is abstracted as a
function from key to optional value. -/
def get_provider (store : String → Option String) (identifier : Option String)
    (providers : ProviderIds) (provider_type : String) :
    Except String (Option String) :=
  if provider_type ∉ provider_types then
    .error ("Unknown provider type: " ++ provider_type)
  else
    match identifier with
    | some ident =>
      .ok (store ("/testrun/" ++ ident ++ "/provider/" ++ provider_type))
    | none =>
      let pfx := "/environment/provider/" ++ provider_type
      let key :=
        if provider_type = "execution-space" then pfx ++ "/" ++ providers.executionSpace
        else if provider_type = "iut" then pfx ++ "/" ++ providers.iut
        else if provider_type = "log-area" then pfx ++ "/" ++ providers.logArea
        else ""
      let key := pfx ++ "/default"
      .ok (store key)

/-! ### is_configured, wait_for_configuration and configure
(registry.py lines 73-125 and environment_provider.py lines 130-143) -/

/-- Python truthiness of the optional suite id: false for None and for
the empty string. -/
def option_truthy : Option String → Bool
  | none => false
  | some s => !(s == "")

/-- The default-provider loop of is_configured: every one of the three
kinds execution-space, iut and log-area must have a non-empty read_all
under its default key. -/
def default_providers_configured (read_all : String → List String) : Bool :=
  ["execution-space", "iut", "log-area"].all
    (fun k => !(read_all ("/environment/provider/" ++ k ++ "/default")).isEmpty)

/-- is_configured (registry.py lines 73-91): with a truthy suite id the
testrun-scoped provider prefix must have a non-empty read_all; without
one, every default provider kind must exist. -/
def is_configured (read_all : String → List String) (suite_id : Option String) : Bool :=
  if option_truthy suite_id then
    !(read_all ("/testrun/" ++ suite_id.getD "" ++ "/provider")).isEmpty
  else
    default_providers_configured read_all

/-- wait_for_configuration (registry.py lines 115-125): iterate the
values yielded by the polling generator (is_configured evaluated against
the store state at each poll), breaking at the first true; the returned
value is the last yielded one, or None when the generator yielded
nothing.  The fuel is the number of yields before the generator is
exhausted. -/
def wait_for_configuration (polls : Nat → String → List String)
    (suite_id : Option String) : Nat → Option Bool
  | 0 => none
  | fuel + 1 =>
    let r := is_configured (polls 0) suite_id
    if r then some true
    else
      match wait_for_configuration (fun i => polls (i + 1)) suite_id fuel with
      | none => some r
      | some r' => some r'

/-- configure (environment_provider.py lines 130-143): raise
EnvironmentProviderNotConfigured unless wait_for_configuration returned a
truthy value. -/
def configure (polls : Nat → String → List String) (suite_id : Option String)
    (fuel : Nat) : Except String Unit :=
  match wait_for_configuration polls suite_id fuel with
  | some true => .ok ()
  | _ => .error "EnvironmentProviderNotConfigured"

/-! ### Dataset handling of _run (environment_provider.py lines 566-576) -/

/-- The dataset branching of _run: with a list of datasets the length
must equal the number of test suites or the assertion fails before any
suite is processed; a non-list value (a single dataset or None) is
broadcast to every suite. -/
def prepare_datasets {α : Type} (datasets : Option (α ⊕ List α)) (n : Nat) :
    Except String (List (Option α)) :=
  match datasets with
  | some (.inr ds) =>
    if ds.length = n then .ok (ds.map some)
    else .error "If multiple datasets are provided it must correspond with number of test suites"
  | some (.inl d) => .ok (List.replicate n (some d))
  | none => .ok (List.replicate n none)

/-- The suite loop of _run restricted to dataset pairing: each suite is
processed with the dataset popped from the front of the prepared list,
i.e. the dataset at the suite's position; a failed preparation aborts
before any suite is processed. -/
def run_suites {α σ τ : Type} (datasets : Option (α ⊕ List α)) (suites : List σ)
    (process : σ → Option α → τ) : Except String (List τ) :=
  match prepare_datasets datasets suites.length with
  | .error e => .error e
  | .ok ds => .ok (List.zipWith process suites ds)

/-- A sample test used by concrete counterexamples and witnesses. -/
def sample_test : Test :=
  { id := "test-1"
    testCase := "case-1"
    execution :=
      { environment := "env"
        command := "cmd"
        execute := "exec"
        checkout := "co"
        parameters := "params"
        testRunner := "runner-image" } }

/-- A sample etcd store used by the concrete provider-resolution
counterexample: a configuration stored only under the provider-id key of
the iut namespace. -/
def sample_store : String → Option String :=
  fun key => if key = "/environment/provider/iut/custom-id" then some "iut-config" else none

/-! ## Helper lemmas -/

theorem recipes_from_tests_eq_map (tests : List Test) :
    recipes_from_tests tests = tests.map recipe_from_test := by
  induction tests with
  | nil => rfl
  | cons t ts ih => simp [recipes_from_tests, ih]

theorem groupRecipes_updateGroup (prio : Nat) (t : Test) (rs : List (String × Group)) :
    (groupRecipes (updateGroup prio t rs)).Perm (t :: groupRecipes rs) := by
  induction rs with
  | nil => simp [groupRecipes, updateGroup]
  | cons p rest ih =>
    obtain ⟨k, g⟩ := p
    by_cases hk : k = t.execution.testRunner
    · simp only [updateGroup, if_pos hk, groupRecipes, List.map_cons, List.flatten_cons]
      exact List.Perm.append_right _ (List.perm_append_singleton t g.unsplit_recipes)
    · simp only [updateGroup, if_neg hk, groupRecipes, List.map_cons, List.flatten_cons]
      exact (List.Perm.append_left _ ih).trans List.perm_middle

theorem groupRecipes_addSuiteTests (prio : Nat) (ts : List Test)
    (rs : List (String × Group)) :
    (groupRecipes (addSuiteTests prio rs ts)).Perm (groupRecipes rs ++ ts) := by
  induction ts generalizing rs with
  | nil => simp [addSuiteTests]
  | cons t ts ih =>
    simp only [addSuiteTests]
    exact ((ih _).trans
      (List.Perm.append_right ts (groupRecipes_updateGroup prio t rs))).trans
      List.perm_middle.symm

theorem allRecipes_updateSuites (d : List (String × List (String × Group)))
    (s : SuiteSpec) :
    (allRecipes (updateSuites d s)).Perm (allRecipes d ++ s.tests) := by
  induction d with
  | nil =>
    simp only [updateSuites, allRecipes, List.map_cons, List.map_nil, List.flatten_cons,
      List.flatten_nil, List.append_nil, List.nil_append]
    exact groupRecipes_addSuiteTests s.priority s.tests []
  | cons p rest ih =>
    obtain ⟨n, rs⟩ := p
    by_cases hn : n = s.name
    · simp only [updateSuites, if_pos hn, allRecipes, List.map_cons, List.flatten_cons]
      refine (List.Perm.append_right _ (groupRecipes_addSuiteTests s.priority s.tests rs)).trans ?_
      rw [List.append_assoc, List.append_assoc]
      exact List.Perm.append_left _ List.perm_append_comm
    · simp only [updateSuites, if_neg hn, allRecipes, List.map_cons, List.flatten_cons]
      refine (List.Perm.append_left _ ih).trans ?_
      rw [List.append_assoc]
      exact List.Perm.refl _

theorem allTests_cons (s : SuiteSpec) (rest : List SuiteSpec) :
    allTests (s :: rest) = s.tests ++ allTests rest := by
  simp [allTests]

theorem allRecipes_foldl (suites : List SuiteSpec)
    (d : List (String × List (String × Group))) :
    (allRecipes (suites.foldl updateSuites d)).Perm (allRecipes d ++ allTests suites) := by
  induction suites generalizing d with
  | nil => simp [allTests]
  | cons s rest ih =>
    rw [List.foldl_cons, allTests_cons]
    refine (ih _).trans ?_
    refine (List.Perm.append_right _ (allRecipes_updateSuites d s)).trans ?_
    rw [List.append_assoc]

theorem lookupRecipes_updateGroup (k : String) (prio : Nat) (t : Test)
    (rs : List (String × Group)) :
    lookupRecipes k (updateGroup prio t rs) =
      lookupRecipes k rs ++ (if t.execution.testRunner = k then [t] else []) := by
  induction rs with
  | nil =>
    simp only [updateGroup, lookupRecipes, List.nil_append]
  | cons p rest ih =>
    obtain ⟨k', g⟩ := p
    simp only [updateGroup]
    by_cases hk : k' = t.execution.testRunner
    · rw [if_pos hk]
      by_cases hkk : k' = k
      · subst hkk
        simp [lookupRecipes, ← hk]
      · have ht : ¬ t.execution.testRunner = k := fun h => hkk (hk.trans h)
        simp [lookupRecipes, hkk, ht]
    · rw [if_neg hk]
      by_cases hkk : k' = k
      · subst hkk
        have ht : ¬ t.execution.testRunner = k' := fun h => hk h.symm
        simp [lookupRecipes, ht]
      · simp [lookupRecipes, hkk, ih]

theorem lookupRecipes_addSuiteTests (k : String) (prio : Nat) (ts : List Test)
    (rs : List (String × Group)) :
    lookupRecipes k (addSuiteTests prio rs ts) =
      lookupRecipes k rs ++ ts.filter (fun t => t.execution.testRunner == k) := by
  induction ts generalizing rs with
  | nil => simp [addSuiteTests]
  | cons t ts ih =>
    simp only [addSuiteTests, ih, lookupRecipes_updateGroup, List.filter_cons]
    by_cases h : t.execution.testRunner = k
    · simp [h, List.append_assoc]
    · simp [h]

theorem lookupGroups_updateSuites (n : String)
    (d : List (String × List (String × Group))) (s : SuiteSpec) :
    lookupGroups n (updateSuites d s) =
      if s.name = n then addSuiteTests s.priority (lookupGroups n d) s.tests
      else lookupGroups n d := by
  induction d with
  | nil =>
    simp [updateSuites, lookupGroups]
  | cons p rest ih =>
    obtain ⟨m, rs⟩ := p
    simp only [updateSuites]
    by_cases hm : m = s.name
    · rw [if_pos hm]
      by_cases hmn : m = n
      · subst hmn
        simp [lookupGroups, ← hm]
      · have hs : ¬ s.name = n := fun h => hmn (hm.trans h)
        simp [lookupGroups, hmn, hs]
    · rw [if_neg hm]
      by_cases hmn : m = n
      · subst hmn
        have hs : ¬ s.name = m := fun h => hm h.symm
        simp [lookupGroups, hs]
      · simp [lookupGroups, hmn, ih]

theorem testsOf_cons (n : String) (s : SuiteSpec) (rest : List SuiteSpec) :
    testsOf n (s :: rest) =
      (if s.name = n then s.tests else []) ++ testsOf n rest := by
  simp only [testsOf, List.filter_cons]
  by_cases h : s.name = n
  · simp [h]
  · simp [h]

theorem lookupRecipes_foldl (k n : String) (suites : List SuiteSpec)
    (d : List (String × List (String × Group))) :
    lookupRecipes k (lookupGroups n (suites.foldl updateSuites d)) =
      lookupRecipes k (lookupGroups n d) ++
        (testsOf n suites).filter (fun t => t.execution.testRunner == k) := by
  induction suites generalizing d with
  | nil => simp [testsOf]
  | cons s rest ih =>
    simp only [List.foldl_cons, ih, lookupGroups_updateSuites, testsOf_cons]
    by_cases h : s.name = n
    · simp [h, lookupRecipes_addSuiteTests, List.filter_append, List.append_assoc]
    · simp [h]

theorem checkout_loop_stop (body : Nat → List (String × Group) → List (String × Group))
    (bt : Nat → Nat) (timeout now : Nat) (g : List (String × Group))
    (h : ¬ now < timeout) :
    checkout_loop body bt timeout now g = (0, .checkoutTimeout) := by
  unfold checkout_loop
  simp [h]

theorem checkout_loop_done (body : Nat → List (String × Group) → List (String × Group))
    (bt : Nat → Nat) (timeout now : Nat) (g : List (String × Group))
    (h : now < timeout) (he : (body now g).isEmpty) :
    checkout_loop body bt timeout now g = (1, .success) := by
  unfold checkout_loop
  simp [h, he]

theorem checkout_loop_cont (body : Nat → List (String × Group) → List (String × Group))
    (bt : Nat → Nat) (timeout now : Nat) (g : List (String × Group))
    (h : now < timeout) (he : ¬ (body now g).isEmpty) :
    checkout_loop body bt timeout now g =
      ((checkout_loop body bt timeout (now + bt now + 5) (body now g)).1 + 1,
       (checkout_loop body bt timeout (now + bt now + 5) (body now g)).2) := by
  conv_lhs => unfold checkout_loop
  simp [h, he]

theorem checkout_loop_count (body : Nat → List (String × Group) → List (String × Group))
    (bt : Nat → Nat) (timeout : Nat) :
    ∀ (k now : Nat) (g : List (String × Group)), timeout - now ≤ 5 * k →
      (checkout_loop body bt timeout now g).1 ≤ k := by
  intro k
  induction k with
  | zero =>
    intro now g hle
    have h : ¬ now < timeout := by omega
    simp [checkout_loop_stop body bt timeout now g h]
  | succ k ih =>
    intro now g hle
    by_cases h : now < timeout
    · by_cases he : (body now g).isEmpty
      · simp [checkout_loop_done body bt timeout now g h he]
      · rw [checkout_loop_cont body bt timeout now g h he]
        exact Nat.succ_le_succ (ih (now + bt now + 5) (body now g) (by omega))
    · simp [checkout_loop_stop body bt timeout now g h]

theorem main_suite_loop_stop (request : Nat → Option String) (timeout : Nat)
    (cur : Option String) (now : Nat) (h : ¬ (cur = none ∧ now < timeout)) :
    main_suite_loop request timeout cur now = (0, cur) := by
  unfold main_suite_loop
  simp [h]

theorem main_suite_loop_cont (request : Nat → Option String) (timeout : Nat)
    (now : Nat) (h : now < timeout) :
    main_suite_loop request timeout none now =
      ((main_suite_loop request timeout (request now) (now + 5)).1 + 1,
       (main_suite_loop request timeout (request now) (now + 5)).2) := by
  conv_lhs => unfold main_suite_loop
  simp [h]

theorem main_suite_loop_count (request : Nat → Option String) (timeout : Nat) :
    ∀ (k now : Nat) (cur : Option String), timeout - now ≤ 5 * k →
      (main_suite_loop request timeout cur now).1 ≤ k := by
  intro k
  induction k with
  | zero =>
    intro now cur hle
    have h : ¬ (cur = none ∧ now < timeout) := by
      rintro ⟨-, h2⟩
      omega
    simp [main_suite_loop_stop request timeout cur now h]
  | succ k ih =>
    intro now cur hle
    match cur with
    | some v =>
      simp [main_suite_loop_stop request timeout (some v) now (by simp)]
    | none =>
      by_cases h : now < timeout
      · rw [main_suite_loop_cont request timeout now h]
        exact Nat.succ_le_succ (ih (now + 5) (request now) (by omega))
      · simp [main_suite_loop_stop request timeout none now (by simp [h])]

theorem main_suite_loop_none (request : Nat → Option String)
    (hreq : ∀ t, request t = none) (timeout : Nat) :
    ∀ (k now : Nat), timeout - now ≤ 5 * k →
      (main_suite_loop request timeout none now).2 = none := by
  intro k
  induction k with
  | zero =>
    intro now hle
    have h : ¬ ((none : Option String) = none ∧ now < timeout) := by
      rintro ⟨-, h2⟩
      omega
    simp [main_suite_loop_stop request timeout none now h]
  | succ k ih =>
    intro now hle
    by_cases h : now < timeout
    · rw [main_suite_loop_cont request timeout now h, hreq now]
      exact ih (now + 5) (by omega)
    · simp [main_suite_loop_stop request timeout none now (by simp [h])]

theorem zipWith_replicate_right {α σ τ : Type} (f : σ → Option α → τ) (x : Option α) :
    ∀ (l : List σ), List.zipWith f l (List.replicate l.length x) = l.map (fun s => f s x) := by
  intro l
  induction l with
  | nil => rfl
  | cons a l ih => simp [List.replicate_succ, ih]

theorem run_one_suite_eq (ec : Bool) (wait : Unit → Option String)
    (request_id : Option String) (st : Except String Nat)
    (ss : Nat → Except String Unit) (co : Except String Unit) :
    run_one_suite ec wait request_id st ss co =
      match main_suite_id_for ec wait request_id with
      | .error e => ([], .error e)
      | .ok _ =>
        match st with
        | .error e => ([], .error e)
        | .ok tid =>
          match ss tid with
          | .error e => ([⟨.unsuccessful, some e⟩], .error e)
          | .ok _ =>
            match co with
            | .error e => ([⟨.unsuccessful, some e⟩], .error e)
            | .ok _ => ([⟨.successful, none⟩], .ok ()) := by
  rcases hm : main_suite_id_for ec wait request_id with em | m
  · simp [run_one_suite, hm]
  · rcases hst : st with es | tid
    · simp [run_one_suite, hm, hst]
    · rcases hss : ss tid with ess | u
      · simp [run_one_suite, hm, hst, hss]
      · rcases hco : co with eco | v
        · simp [run_one_suite, hm, hst, hss, hco]
        · simp [run_one_suite, hm, hst, hss, hco]

/-! ## Claim theorems -/

/-- C1: the checkout loop runs at most one iteration per 5 time units of
the aggregate deadline WAIT_FOR_IUT_TIMEOUT plus
WAIT_FOR_EXECUTION_SPACE_TIMEOUT plus WAIT_FOR_LOG_AREA_TIMEOUT plus the
grace 10 and hence terminates; whenever the deadline has been reached at
an iteration boundary the loop raises the checkout timeout error, and
whenever an iteration before the deadline leaves the test-runner dict
empty the loop exits with success. -/
theorem checkout_deadline_respected
    (body : Nat → List (String × Group) → List (String × Group)) (bt : Nat → Nat)
    (iutT execT logT now : Nat) (g : List (String × Group)) :
    ((checkout body bt iutT execT logT now g).1 ≤ (iutT + execT + logT + 10 + 4) / 5)
  ∧ (∀ (t : Nat) (g' : List (String × Group)), checkout_timeout now iutT execT logT ≤ t →
       (checkout_loop body bt (checkout_timeout now iutT execT logT) t g').2 =
         CheckoutResult.checkoutTimeout)
  ∧ (∀ (t : Nat) (g' : List (String × Group)), t < checkout_timeout now iutT execT logT →
       (body t g').isEmpty →
       (checkout_loop body bt (checkout_timeout now iutT execT logT) t g').2 =
         CheckoutResult.success) := by
  refine ⟨?_, ?_, ?_⟩
  · exact checkout_loop_count body bt _ _ now g (by unfold checkout_timeout; omega)
  · intro t g' ht
    rw [checkout_loop_stop body bt _ t g' (by omega)]
  · intro t g' ht he
    rw [checkout_loop_done body bt _ t g' ht he]

/-- Witness for C1: with a body that never empties the test-runner dict
the boundary check at the deadline raises the checkout timeout error. -/
theorem checkout_deadline_respected_witness :
    (checkout_loop (fun _ g => g) (fun _ => 0) (checkout_timeout 0 10 10 10) 40
       [("runner-image", ⟨"runner-image", 1, [sample_test]⟩)]).2 =
      CheckoutResult.checkoutTimeout :=
  (checkout_deadline_respected (fun _ g => g) (fun _ => 0) 10 10 10 0 []).2.1 40
    [("runner-image", ⟨"runner-image", 1, [sample_test]⟩)] (by decide)

/-- C3: create_test_suite_dict conserves recipes: the concatenation of
all unsplit_recipes lists across all groups of all suite entries is a
permutation of the concatenation of the input suites' tests (no test
lost, none duplicated), and the group stored under runner key k of the
suite entry named n holds exactly the tests of the input suites named n
whose execution.testRunner is k, in input order. -/
theorem recipe_conservation (suites : List SuiteSpec) :
    ((allRecipes (create_test_suite_dict suites)).Perm (allTests suites))
  ∧ (∀ (n k : String),
       lookupRecipes k (lookupGroups n (create_test_suite_dict suites)) =
         (testsOf n suites).filter (fun t => t.execution.testRunner == k)) := by
  constructor
  · have h := allRecipes_foldl suites []
    simpa [create_test_suite_dict, allRecipes] using h
  · intro n k
    have h := lookupRecipes_foldl k n suites []
    simpa [create_test_suite_dict, lookupGroups, lookupRecipes] using h

/-- C4 counterexample: with no dataset override, an environment override
of 5 and two unassigned recipes the maximum passed to the IUT checkout is
the override 5 itself, not the minimum of the total recipe count 2 and
the override. -/
theorem iut_maximum_not_clamped :
    iut_checkout_maximum none (some 5)
      [("runner-image", ⟨"runner-image", 1, [sample_test, sample_test]⟩)] = 5
  ∧ set_total_test_count
      [("runner-image", ⟨"runner-image", 1, [sample_test, sample_test]⟩)] = 2
  ∧ (5 : Nat) ≠ min 2 5 := by
  exact ⟨rfl, rfl, by decide⟩

/-- C4 as amended: the IUT checkout request always uses minimum 1, and
its maximum is the dataset maximum_amount value when present, otherwise
the ETOS_MAX_PARALLEL_IUTS override when present (used as-is, not clamped
by the recipe count), otherwise the total count of unassigned recipes. -/
theorem iut_checkout_bounds :
    (iut_checkout_minimum = 1)
  ∧ (∀ (v : Nat) (env_max : Option Nat) (g : List (String × Group)),
       iut_checkout_maximum (some v) env_max g = v)
  ∧ (∀ (v : Nat) (g : List (String × Group)),
       iut_checkout_maximum none (some v) g = v)
  ∧ (∀ (g : List (String × Group)),
       iut_checkout_maximum none none g = set_total_test_count g) :=
  ⟨rfl, fun _ _ _ => rfl, fun _ _ => rfl, fun _ => rfl⟩

/-- C5: the main-suite wait makes at most 7 requests (one initial request
plus the polls of a 30-unit window at a 5-unit interval); when the event
repository never yields a main suite the wait returns none; in
non-controller mode a none result makes the engine fail the suite with
the main-suite timeout error; in controller mode the result never depends
on the event repository, which is not consulted. -/
theorem main_suite_wait_bounded (request : Nat → Option String) (now : Nat) :
    ((wait_for_main_suite request now).1 ≤ 7)
  ∧ ((∀ t, request t = none) → (wait_for_main_suite request now).2 = none)
  ∧ (∀ (wait : Unit → Option String) (request_id : Option String),
       wait () = none →
       main_suite_id_for false wait request_id =
         .error "Timed out while waiting for test suite started from ESR")
  ∧ (∀ (wait wait' : Unit → Option String) (request_id : Option String),
       main_suite_id_for true wait request_id = main_suite_id_for true wait' request_id) := by
  refine ⟨?_, ?_, ?_, ?_⟩
  · have h := main_suite_loop_count request (now + 30) 6 now (request now) (by omega)
    simp only [wait_for_main_suite]
    omega
  · intro hreq
    have h := main_suite_loop_none request hreq (now + 30) 6 now (by omega)
    simp only [wait_for_main_suite, hreq now]
    exact h
  · intro wait request_id hw
    simp [main_suite_id_for, hw]
  · intro wait wait' request_id
    simp [main_suite_id_for]

/-- Witness for C5: a repository that never yields a main suite makes the
wait return none. -/
theorem main_suite_wait_bounded_witness :
    (wait_for_main_suite (fun _ => none) 0).2 = none :=
  (main_suite_wait_bounded (fun _ => none) 0).2.1 (fun _ => rfl)

/-- C6 counterexample: a suite whose processing fails in the main-suite
wait, before send_activity_triggered runs, emits no activity-finished
signal at all even though the suite's processing exited with an error. -/
theorem activity_finished_missing_on_early_failure :
    ((run_one_suite false (fun _ => none) none (.ok 0) (fun _ => .ok ()) (.ok ())).1 = [])
  ∧ ((run_one_suite false (fun _ => none) none (.ok 0) (fun _ => .ok ()) (.ok ())).2 =
      .error "Timed out while waiting for test suite started from ESR") :=
  ⟨rfl, rfl⟩

/-- C6 as amended: at most one activity-finished signal is emitted per
suite; exactly one is emitted whenever send_activity_triggered succeeded
(conclusion SUCCESSFUL on success, UNSUCCESSFUL with the error string as
description on failure), but none is emitted when the suite fails before
or during send_activity_triggered, such as in the main-suite wait. -/
theorem activity_finished_emission (ec : Bool) (wait : Unit → Option String)
    (request_id : Option String) (st : Except String Nat)
    (ss : Nat → Except String Unit) (co : Except String Unit) :
    ((run_one_suite ec wait request_id st ss co).1.length ≤ 1)
  ∧ ((run_one_suite ec wait request_id st ss co).2 = .ok () →
       (run_one_suite ec wait request_id st ss co).1 =
         [⟨Conclusion.successful, none⟩])
  ∧ (∀ (m : Option String) (tid : Nat),
       main_suite_id_for ec wait request_id = .ok m → st = .ok tid →
       ∀ e, (run_one_suite ec wait request_id st ss co).2 = .error e →
         (run_one_suite ec wait request_id st ss co).1 =
           [⟨Conclusion.unsuccessful, some e⟩])
  ∧ (∀ e, main_suite_id_for ec wait request_id = .error e →
       (run_one_suite ec wait request_id st ss co).1 = [])
  ∧ (∀ (m : Option String) (e : String),
       main_suite_id_for ec wait request_id = .ok m → st = .error e →
       (run_one_suite ec wait request_id st ss co).1 = []) := by
  rw [run_one_suite_eq]
  rcases hm : main_suite_id_for ec wait request_id with em | m
  · refine ⟨by simp [hm], by simp [hm], ?_, ?_, ?_⟩
    · intro m tid hok htid
      simp [hm] at hok
    · intro e he
      simp [hm]
    · intro m e hok he
      simp [hm] at hok
  · rcases hst : st with es | tid
    · refine ⟨by simp [hm, hst], by simp [hm, hst], ?_, ?_, ?_⟩
      · intro m' tid hok htid
        simp [hst] at htid
      · intro e he
        simp [hm] at he
      · intro m' e hok he
        simp [hm, hst]
    · rcases hss : ss tid with ess | u
      · refine ⟨by simp [hm, hst, hss], by simp [hm, hst, hss], ?_, ?_, ?_⟩
        · intro m' tid' hok htid e he
          have htt : tid' = tid := (Except.ok.inj htid).symm
          subst htt
          simp [hm, hst, hss] at he ⊢
          simp [he]
        · intro e he
          simp [hm] at he
        · intro m' e hok he
          simp [hst] at he
      · rcases hco : co with eco | v
        · refine ⟨by simp [hm, hst, hss, hco], by simp [hm, hst, hss, hco], ?_, ?_, ?_⟩
          · intro m' tid' hok htid e he
            have htt : tid' = tid := (Except.ok.inj htid).symm
            subst htt
            simp [hm, hst, hss, hco] at he ⊢
            simp [he]
          · intro e he
            simp [hm] at he
          · intro m' e hok he
            simp [hst] at he
        · refine ⟨by simp [hm, hst, hss, hco], by simp [hm, hst, hss, hco], ?_, ?_, ?_⟩
          · intro m' tid' hok htid e he
            have htt : tid' = tid := (Except.ok.inj htid).symm
            subst htt
            simp [hm, hst, hss, hco] at he
          · intro e he
            simp [hm] at he
          · intro m' e hok he
            simp [hst] at he

/-- Witness for C6 as amended: a failure in the checkout stage, after a
successful activity-triggered, emits exactly one UNSUCCESSFUL finished
signal carrying the error description. -/
theorem activity_finished_emission_witness :
    (run_one_suite true (fun _ => none) none (.ok 0) (fun _ => .ok ())
       (.error "boom")).1 = [⟨Conclusion.unsuccessful, some "boom"⟩] :=
  (activity_finished_emission true (fun _ => none) none (.ok 0) (fun _ => .ok ())
    (.error "boom")).2.2.1 none 0 rfl rfl "boom" rfl

/-- C7 counterexample: without a testrun identifier, a configuration
stored under the provider-id-addressed path of the global namespace is
not found: _get_provider overwrites the provider-id key with the default
key and returns the (empty) content of the default path instead. -/
theorem provider_id_path_ignored :
    (get_provider sample_store none ⟨"custom-id", "es-id", "la-id"⟩ "iut" = .ok none)
  ∧ (sample_store "/environment/provider/iut/custom-id" = some "iut-config") :=
  ⟨rfl, rfl⟩

/-- C7 as amended: for a valid provider kind the resolution reads the
testrun-scoped path when a testrun identifier is present and otherwise
reads the default path of the global namespace, regardless of the
provider ids named in the request; the result is exactly the store
content of the selected path (None when nothing is stored there). -/
theorem provider_resolution_paths (store : String → Option String)
    (providers : ProviderIds) (provider_type : String)
    (h : provider_type ∈ provider_types) :
    (∀ ident, get_provider store (some ident) providers provider_type =
       .ok (store ("/testrun/" ++ ident ++ "/provider/" ++ provider_type)))
  ∧ (get_provider store none providers provider_type =
       .ok (store ("/environment/provider/" ++ provider_type ++ "/default"))) := by
  constructor
  · intro ident
    simp [get_provider, h]
  · simp [get_provider, h]

/-- Witness for C7 as amended: the log-area fallback reads the default
path of the global namespace. -/
theorem provider_resolution_paths_witness :
    get_provider sample_store none ⟨"custom-id", "es-id", "la-id"⟩ "log-area" =
      .ok (sample_store "/environment/provider/log-area/default") :=
  (provider_resolution_paths sample_store ⟨"custom-id", "es-id", "la-id"⟩ "log-area"
    (by decide)).2

theorem wait_for_configuration_all_false (suite_id : Option String) :
    ∀ (fuel : Nat) (polls : Nat → String → List String),
      (∀ i, is_configured (polls i) suite_id = false) →
      wait_for_configuration polls suite_id fuel ≠ some true := by
  intro fuel
  induction fuel with
  | zero =>
    intro polls h
    simp [wait_for_configuration]
  | succ fuel ih =>
    intro polls h
    simp only [wait_for_configuration, h 0, Bool.false_eq_true, if_false]
    cases hw : wait_for_configuration (fun i => polls (i + 1)) suite_id fuel with
    | none => simp
    | some r' =>
      have hne := ih (fun i => polls (i + 1)) (fun i => h (i + 1))
      rw [hw] at hne
      simpa using hne

/-- C8: is_configured is true exactly when, with a truthy suite id, the
testrun-scoped provider prefix has content, and, without one, every one
of the three kinds execution-space, iut and log-area has a default
provider entry; when every poll of the readiness wait reports
not-configured, the wait never returns true and configure raises the
not-configured error. -/
theorem configuration_readiness (read_all : String → List String)
    (suite_id : Option String) :
    (option_truthy suite_id = true →
       (is_configured read_all suite_id = true ↔
         read_all ("/testrun/" ++ suite_id.getD "" ++ "/provider") ≠ []))
  ∧ (option_truthy suite_id = false →
       (is_configured read_all suite_id = true ↔
         ∀ k ∈ (["execution-space", "iut", "log-area"] : List String),
           read_all ("/environment/provider/" ++ k ++ "/default") ≠ []))
  ∧ (∀ (polls : Nat → String → List String) (fuel : Nat),
       (∀ i, is_configured (polls i) suite_id = false) →
         wait_for_configuration polls suite_id fuel ≠ some true
       ∧ configure polls suite_id fuel = .error "EnvironmentProviderNotConfigured") := by
  refine ⟨?_, ?_, ?_⟩
  · intro h
    simp [is_configured, h, List.isEmpty_iff]
  · intro h
    simp [is_configured, h, default_providers_configured, List.isEmpty_iff]
  · intro polls fuel hall
    have hw := wait_for_configuration_all_false suite_id fuel polls hall
    refine ⟨hw, ?_⟩
    unfold configure
    cases hval : wait_for_configuration polls suite_id fuel with
    | none => rfl
    | some b =>
      cases b with
      | false => rfl
      | true => exact absurd hval hw

/-- Witness for C8: with an empty store every poll reports
not-configured, so configure raises the not-configured error. -/
theorem configuration_readiness_witness :
    configure (fun _ _ => []) (some "sid") 3 =
      .error "EnvironmentProviderNotConfigured" :=
  ((configuration_readiness (fun _ => []) (some "sid")).2.2 (fun _ _ => []) 3
    (fun _ => rfl)).2

/-- C9: a dataset list whose length differs from the number of suites
makes the run fail with the assertion message before any suite is
processed; a matching list pairs each suite with the dataset at its
position; a single dataset (or None) is broadcast to every suite. -/
theorem dataset_pairing {α σ τ : Type} (process : σ → Option α → τ) :
    (∀ (ds : List α) (suites : List σ), ds.length ≠ suites.length →
       run_suites (some (.inr ds)) suites process =
         .error "If multiple datasets are provided it must correspond with number of test suites")
  ∧ (∀ (ds : List α) (suites : List σ), ds.length = suites.length →
       run_suites (some (.inr ds)) suites process =
         .ok (List.zipWith (fun s d => process s (some d)) suites ds))
  ∧ (∀ (d : α) (suites : List σ), run_suites (some (.inl d)) suites process =
       .ok (suites.map (fun s => process s (some d))))
  ∧ (∀ (suites : List σ), run_suites none suites process =
       .ok (suites.map (fun s => process s none))) := by
  refine ⟨?_, ?_, ?_, ?_⟩
  · intro ds suites hne
    simp [run_suites, prepare_datasets, hne]
  · intro ds suites heq
    simp [run_suites, prepare_datasets, heq, List.zipWith_map_right]
  · intro d suites
    simp [run_suites, prepare_datasets, zipWith_replicate_right]
  · intro suites
    simp [run_suites, prepare_datasets, zipWith_replicate_right]

/-- Witness for C9: two datasets against one suite abort with the
assertion message. -/
theorem dataset_pairing_witness :
    run_suites (some (Sum.inr [1, 2])) ([10] : List Nat)
      (fun s d => (s, d)) =
      .error "If multiple datasets are provided it must correspond with number of test suites" :=
  (dataset_pairing (fun (s : Nat) (d : Option Nat) => (s, d))).1 [1, 2] [10] (by decide)

/-- C10: recipes_from_tests returns one recipe per test, in order, each
carrying the test's id and test-case data and the six constraints
ENVIRONMENT, COMMAND, EXECUTE, CHECKOUT, PARAMETERS and TEST_RUNNER bound
to the test's execution fields; get_constraint on such a recipe returns
the corresponding execution field for each of these keys and None for
any other key. -/
theorem recipes_and_constraints (tests : List Test) :
    ((recipes_from_tests tests).length = tests.length)
  ∧ (∀ i : Nat, (recipes_from_tests tests)[i]? = (tests[i]?).map recipe_from_test)
  ∧ (∀ (t : Test) (key : String),
       get_constraint (recipe_from_test t) key =
         if key = "ENVIRONMENT" then some t.execution.environment
         else if key = "COMMAND" then some t.execution.command
         else if key = "EXECUTE" then some t.execution.execute
         else if key = "CHECKOUT" then some t.execution.checkout
         else if key = "PARAMETERS" then some t.execution.parameters
         else if key = "TEST_RUNNER" then some t.execution.testRunner
         else none) := by
  refine ⟨?_, ?_, ?_⟩
  · rw [recipes_from_tests_eq_map]
    simp
  · intro i
    rw [recipes_from_tests_eq_map]
    simp
  · intro t key
    by_cases h1 : key = "ENVIRONMENT"
    · simp [get_constraint, recipe_from_test, get_constraint_loop, h1]
    · by_cases h2 : key = "COMMAND"
      · simp [get_constraint, recipe_from_test, get_constraint_loop, h1, h2]
      · by_cases h3 : key = "EXECUTE"
        · simp [get_constraint, recipe_from_test, get_constraint_loop, h1, h2, h3]
        · by_cases h4 : key = "CHECKOUT"
          · simp [get_constraint, recipe_from_test, get_constraint_loop, h1, h2, h3, h4]
          · by_cases h5 : key = "PARAMETERS"
            · simp [get_constraint, recipe_from_test, get_constraint_loop, h1, h2, h3, h4, h5]
            · by_cases h6 : key = "TEST_RUNNER"
              · simp [get_constraint, recipe_from_test, get_constraint_loop,
                  h1, h2, h3, h4, h5, h6]
              · simp [get_constraint, recipe_from_test, get_constraint_loop,
                  h1, h2, h3, h4, h5, h6,
                  Ne.symm h1, Ne.symm h2, Ne.symm h3, Ne.symm h4, Ne.symm h5, Ne.symm h6]

end EnvProvider
